import Mathlib

/-!
Shallow embedding of the tinky clip-watching app core
(src/lib/clipsService.ts, src/app/tabs/watch.tsx,
src/components/VerticalVideoPlayer.tsx) and proofs about the
spec's claims on that code.

Conventions of the embedding:
* JavaScript numbers carrying media positions are modelled as `ℚ`
  (seconds) or `ℕ` (milliseconds), faithful to the arithmetic the
  source performs on them.
* Optional booleans (`isPremium?: boolean`) are `Option Bool`; the
  JS truthiness test `!clip.isPremium` is `clip.isPremium ≠ some true`.
* Array indexing `film.clips[i]` with a possibly negative integer is
  `jsIndex : List α → ℤ → Option α`, returning `none` out of bounds.
* Fallible I/O (AsyncStorage, supabase) is modelled by explicit
  environments of failure flags; JS `try/catch` becomes a `match` on
  an `Except` returned by the primitive operation.
-/

/-- Clip record, from the `Clip` interface of src/lib/clipsService.ts. -/
structure Clip where
  id : String
  title : String
  hlsUrl : String
  duration : ℚ
  order : ℕ
  isPremium : Option Bool
deriving DecidableEq, Repr

/-- Film record, from the `Film` interface of src/lib/clipsService.ts. -/
structure Film where
  id : String
  title : String
  description : String
  coverImageUrl : String
  clips : List Clip
  currentClipIndex : ℕ
  lastWatchedAt : String
  totalClips : ℕ
  freeClipLimit : ℕ
  isPremium : Option Bool
deriving DecidableEq, Repr

/-- Watch-progress record, from the `WatchProgress` interface of
src/lib/clipsService.ts. -/
structure WatchProgress where
  filmId : String
  currentClipIndex : ℕ
  currentTime : ℚ
  lastWatchedAt : String
  userId : String
deriving DecidableEq, Repr

/-- JavaScript array indexing `l[i]`: `undefined` (here `none`) when the
index is negative or past the end. -/
def jsIndex (l : List Clip) (i : ℤ) : Option Clip :=
  if h : 0 ≤ i ∧ i.toNat < l.length then some (l.get ⟨i.toNat, h.2⟩) else none

/-- ClipsService.canAccessClip (src/lib/clipsService.ts lines 265-277):
out-of-bounds index gives `false`; a non-premium clip is always
accessible; a premium clip is accessible with premium entitlement, or,
for free users, when the index is below `film.freeClipLimit`. -/
def canAccessClip (film : Film) (clipIndex : ℤ) (userHasPremium : Bool) : Bool :=
  match jsIndex film.clips clipIndex with
  | none => false
  | some clip =>
    if clip.isPremium ≠ some true then true
    else if userHasPremium then true
    else decide (clipIndex < (film.freeClipLimit : ℤ))

/-- ClipsService.getNextClipIndex (src/lib/clipsService.ts line 296):
`Math.min(currentIndex + 1, totalClips - 1)`. -/
def getNextClipIndex (currentIndex totalClips : ℤ) : ℤ :=
  min (currentIndex + 1) (totalClips - 1)

/-- ClipsService.getPreviousClipIndex (src/lib/clipsService.ts line 301):
`Math.max(currentIndex - 1, 0)`. -/
def getPreviousClipIndex (currentIndex : ℤ) : ℤ :=
  max (currentIndex - 1) 0

/-- ClipsService.STORAGE_KEY (src/lib/clipsService.ts line 35). -/
def storageKeyBase : String := "tinky_watch_progress"

/-- Local durable-cache key used by both `saveLocalProgress` and
`getLocalProgress`: the template string
`STORAGE_KEY + "_" + filmId` (src/lib/clipsService.ts lines 40 and 52).
It depends on the film id only. -/
def localStorageKey (filmId : String) : String :=
  storageKeyBase ++ "_" ++ filmId

/-- The key under which `saveLocalProgress` stores a progress record:
`localStorageKey progress.filmId` (src/lib/clipsService.ts line 52). -/
def localKeyOf (p : WatchProgress) : String :=
  localStorageKey p.filmId

/-- Example film used to instantiate claims: five clips, the first two
free previews, the last three premium, `freeClipLimit = 2` (mirrors how
`getFilm` derives `freeClipLimit` as the count of free-preview clips). -/
def demoClip (n : ℕ) (premium : Bool) : Clip :=
  { id := "c" ++ toString n, title := "Clip " ++ toString n,
    hlsUrl := "https://example.com/c" ++ toString n ++ ".m3u8",
    duration := 60, order := n, isPremium := some premium }

/-- Five-clip film with free-clip limit two, clips 0-1 unrestricted and
clips 2-4 restricted. -/
def demoFilm : Film :=
  { id := "film1", title := "Demo", description := "",
    coverImageUrl := "",
    clips := [demoClip 0 false, demoClip 1 false, demoClip 2 true,
              demoClip 3 true, demoClip 4 true],
    currentClipIndex := 0, lastWatchedAt := "", totalClips := 5,
    freeClipLimit := 2, isPremium := some false }

/-!
Persistence layer (ClipsService read/write paths).

The on-device key-value store (AsyncStorage) is an association list of
string keys to stored progress records; the remote store (supabase
`watch_progress` table) is an association list keyed by
`(user_id, film_id)`.  Whether a primitive I/O call throws or reports an
error is determined by an explicit environment `IOEnv`, so theorems can
quantify over every failure pattern.
-/

/-- On-device key-value store state; `setItem` prepends, `getItem` reads
the most recent entry for the key (last-write-wins). -/
def LocalStore : Type := List (String × WatchProgress)

/-- Remote `watch_progress` table state, keyed by `(user_id, film_id)`. -/
def CloudStore : Type := List ((String × String) × WatchProgress)

/-- Failure pattern of the primitive I/O calls during one service
operation. -/
structure IOEnv where
  localSetThrows : Bool
  localGetThrows : Bool
  cloudUpsertThrows : Bool
  cloudUpsertError : Bool
  cloudFetchThrows : Bool
  cloudFetchError : Bool
deriving DecidableEq, Repr

/-- Externally visible persistence effects, in program order. -/
inductive PersistEffect where
  | localSet (key : String) (p : WatchProgress)
  | cloudUpsert (userId filmId : String) (p : WatchProgress)
  | logError (site : String)
deriving DecidableEq, Repr

/-- AsyncStorage.setItem: throws when the environment says so, otherwise
records the key-value pair (newest entry first). -/
def asyncStorageSetItem (env : IOEnv) (st : LocalStore) (key : String)
    (p : WatchProgress) : Except String LocalStore :=
  if env.localSetThrows then .error "AsyncStorage.setItem failed"
  else .ok ((key, p) :: st)

/-- AsyncStorage.getItem: throws when the environment says so, otherwise
returns the most recent value stored under the key, if any. -/
def asyncStorageGetItem (env : IOEnv) (st : LocalStore) (key : String) :
    Except String (Option WatchProgress) :=
  if env.localGetThrows then .error "AsyncStorage.getItem failed"
  else .ok ((st.find? fun e => e.1 == key).map (·.2))

/-- Supabase upsert on `watch_progress`: may throw, may return an error
result object; on success replaces the row keyed `(user_id, film_id)`. -/
def supabaseUpsert (env : IOEnv) (st : CloudStore) (userId filmId : String)
    (p : WatchProgress) : Except String (CloudStore × Bool) :=
  if env.cloudUpsertThrows then .error "network failure"
  else if env.cloudUpsertError then .ok (st, true)
  else .ok (((userId, filmId), p) :: st.filter (fun e => e.1 ≠ (userId, filmId)), false)

/-- Supabase select-single on `watch_progress`: may throw, may return an
error result, otherwise returns the row for `(user_id, film_id)` if
present. -/
def supabaseSelectSingle (env : IOEnv) (st : CloudStore) (userId filmId : String) :
    Except String (Option WatchProgress × Bool) :=
  if env.cloudFetchThrows then .error "network failure"
  else if env.cloudFetchError then .ok (none, true)
  else .ok ((st.find? fun e => e.1 == (userId, filmId)).map (·.2), false)

/-- ClipsService.saveLocalProgress (src/lib/clipsService.ts lines 49-58):
`setItem` under the film-derived key inside `try/catch`; a failure is
logged and swallowed, leaving the store unchanged. -/
def saveLocalProgress (env : IOEnv) (st : LocalStore) (p : WatchProgress) :
    Except String (LocalStore × List PersistEffect) :=
  match asyncStorageSetItem env st (localKeyOf p) p with
  | .ok st' => .ok (st', [.localSet (localKeyOf p) p])
  | .error _ => .ok (st, [.localSet (localKeyOf p) p, .logError "saveLocalProgress"])

/-- ClipsService.syncProgressToCloud (src/lib/clipsService.ts lines
61-80): upsert keyed by `(user_id, film_id)` inside `try/catch`; both a
thrown failure and an error result are logged and swallowed. -/
def syncProgressToCloud (env : IOEnv) (st : CloudStore) (p : WatchProgress) :
    Except String (CloudStore × List PersistEffect) :=
  match supabaseUpsert env st p.userId p.filmId p with
  | .ok (st', false) => .ok (st', [.cloudUpsert p.userId p.filmId p])
  | .ok (_, true) => .ok (st, [.cloudUpsert p.userId p.filmId p, .logError "syncProgressToCloud"])
  | .error _ => .ok (st, [.cloudUpsert p.userId p.filmId p, .logError "syncProgressToCloud"])

/-- ClipsService.saveWatchProgress (src/lib/clipsService.ts lines
124-132): always save locally first, then sync to the cloud only when
`progress.userId` is truthy (a non-empty string). -/
def saveWatchProgress (env : IOEnv) (locSt : LocalStore) (cloud : CloudStore)
    (p : WatchProgress) :
    Except String (LocalStore × CloudStore × List PersistEffect) := do
  let (locSt', tr₁) ← saveLocalProgress env locSt p
  if p.userId ≠ "" then
    let (cloud', tr₂) ← syncProgressToCloud env cloud p
    return (locSt', cloud', tr₁ ++ tr₂)
  else
    return (locSt', cloud, tr₁)

/-- ClipsService.getLocalProgress (src/lib/clipsService.ts lines 38-46):
`getItem` under the film-derived key inside `try/catch`; a failure
returns `null`. -/
def getLocalProgress (env : IOEnv) (st : LocalStore) (filmId : String) :
    Option WatchProgress :=
  match asyncStorageGetItem env st (localStorageKey filmId) with
  | .ok r => r
  | .error _ => none

/-- ClipsService.getCloudProgress (src/lib/clipsService.ts lines 83-107):
select-single keyed `(user_id, film_id)` inside `try/catch`; an error
result, an absent row, or a thrown failure all yield `null`. -/
def getCloudProgress (env : IOEnv) (st : CloudStore) (userId filmId : String) :
    Option WatchProgress :=
  match supabaseSelectSingle env st userId filmId with
  | .ok (some p, false) => some p
  | .ok (_, true) => none
  | .ok (none, false) => none
  | .error _ => none

/-- JavaScript truthiness of the `userId : string | null` parameter of
`getWatchProgress`: `null` and the empty string are falsy. -/
def userIdTruthy : Option String → Bool
  | none => false
  | some s => s ≠ ""

/-- ClipsService.getWatchProgress (src/lib/clipsService.ts lines
110-121): try the cloud first for a truthy user id, returning its result
when non-null; otherwise fall back to local storage. -/
def getWatchProgress (env : IOEnv) (locSt : LocalStore) (cloud : CloudStore)
    (userId : Option String) (filmId : String) : Option WatchProgress :=
  if userIdTruthy userId then
    match getCloudProgress env cloud (userId.getD "") filmId with
    | some p => some p
    | none => getLocalProgress env locSt filmId
  else
    getLocalProgress env locSt filmId

/-- Recognizer for cloud-upsert effects in a trace. -/
def PersistEffect.isCloudUpsert : PersistEffect → Bool
  | .cloudUpsert _ _ _ => true
  | _ => false

/-!
Feed state machine (src/components/VerticalVideoPlayer.tsx).

Each mounted `VideoItem` keeps React state `isPlaying`, `isLoaded`,
`currentTime`, `duration`; the underlying expo-av player's own playing
state (driven by `playAsync`/`pauseAsync` commands) is tracked as
`nativePlaying`.  The feed keeps `currentIndex`; an item's `isVisible`
prop is `index === currentIndex` (renderVideoItem).  Events delivered to
the machine: a viewability change from the FlatList
(`onViewableItemsChanged`), a playback-status update from a mounted
player (`handlePlaybackStatusUpdate`), and a user tap on the on-screen
item's play/pause overlay (`togglePlayPause`; only the item filling the
screen can receive the tap, i.e. the one at `currentIndex`).
-/

/-- Per-clip state of one mounted VideoItem plus its native player. -/
structure ClipPlayback where
  isPlaying : Bool
  nativePlaying : Bool
  isLoaded : Bool
  positionMillis : ℕ
  durationMillis : ℕ
deriving DecidableEq, Repr

/-- Initial VideoItem state: `useState(false)` for `isPlaying` and
`isLoaded`, zero position and duration; the native player starts
paused (`shouldPlay={false}`). -/
def ClipPlayback.initial : ClipPlayback :=
  ⟨false, false, false, 0, 0⟩

/-- State of the whole feed: the active index plus every clip's state. -/
structure FeedState where
  currentIndex : ℕ
  clip : ℕ → ClipPlayback

/-- Feed state on mount: `useState(initialClipIndex)` for the index, all
items fresh. -/
def initFeed (initialClipIndex : ℕ) : FeedState :=
  ⟨initialClipIndex, fun _ => ClipPlayback.initial⟩

/-- Events the feed machine consumes. -/
inductive FeedEvent where
  | visibility (newIndex : ℕ)
  | status (clipIndex : ℕ) (loaded : Bool) (positionMillis : ℕ)
      (durationMillis : ℕ) (didJustFinish : Bool)
  | toggle
deriving DecidableEq, Repr

/-- Replace one clip's state, leaving the rest untouched. -/
def FeedState.setClip (st : FeedState) (i : ℕ) (c : ClipPlayback) : FeedState :=
  ⟨st.currentIndex, fun j => if j = i then c else st.clip j⟩

/-- Viewability change (VerticalVideoPlayer.tsx lines 674-680 plus the
visibility effect at lines 459-465): `setCurrentIndex(newIndex)` makes
`isVisible` flip to `false` exactly for the formerly active item, whose
effect then issues `pauseAsync()` and `setIsPlaying(false)`; an item
whose `isVisible` stays `false` does not re-run the effect. -/
def stepVisibility (st : FeedState) (newIndex : ℕ) : FeedState :=
  if st.currentIndex = newIndex then ⟨newIndex, st.clip⟩
  else
    let prev := st.clip st.currentIndex
    FeedState.setClip ⟨newIndex, st.clip⟩ st.currentIndex
      { prev with isPlaying := false, nativePlaying := false }

/-- Playback-status update for one mounted item
(VerticalVideoPlayer.tsx lines 506-535).  The status reported by the
native player carries `isPlaying` equal to the player's own state (a
just-finished non-looping video is no longer playing).  When loaded:
record position, duration, `setIsLoaded(true)`,
`setIsPlaying(status.isPlaying)`; then the auto-play branch issues
`playAsync()` when the item is visible, not playing, not just finished,
and at position zero; `didJustFinish` finally forces
`setIsPlaying(false)`.  When not loaded: `setIsLoaded(false)`. -/
def stepStatus (st : FeedState) (i : ℕ) (loaded : Bool)
    (pos dur : ℕ) (fin : Bool) : FeedState :=
  if loaded then
    let statusIsPlaying := (st.clip i).nativePlaying && !fin
    let c₁ : ClipPlayback :=
      { isPlaying := statusIsPlaying, nativePlaying := (st.clip i).nativePlaying,
        isLoaded := true, positionMillis := pos, durationMillis := dur }
    let c₂ : ClipPlayback :=
      if statusIsPlaying = false ∧ i = st.currentIndex ∧ fin = false ∧ pos = 0 then
        { c₁ with nativePlaying := true }
      else c₁
    let c₃ : ClipPlayback :=
      if fin then { c₂ with isPlaying := false, nativePlaying := false } else c₂
    st.setClip i c₃
  else
    st.setClip i { st.clip i with isLoaded := false }

/-- User tap on the on-screen item's overlay
(VerticalVideoPlayer.tsx lines 485-500): no-op unless loaded; otherwise
flips between `pauseAsync` + `setIsPlaying(false)` and `playAsync` +
`setIsPlaying(true)`. -/
def stepToggle (st : FeedState) : FeedState :=
  let i := st.currentIndex
  let c := st.clip i
  if c.isLoaded then
    if c.isPlaying then
      st.setClip i { c with isPlaying := false, nativePlaying := false }
    else
      st.setClip i { c with isPlaying := true, nativePlaying := true }
  else st

/-- One step of the feed machine. -/
def stepFeed (st : FeedState) : FeedEvent → FeedState
  | .visibility n => stepVisibility st n
  | .status i loaded pos dur fin => stepStatus st i loaded pos dur fin
  | .toggle => stepToggle st

/-- Run the feed machine from its mount state over an event list. -/
def runFeed (initialClipIndex : ℕ) (evs : List FeedEvent) : FeedState :=
  evs.foldl stepFeed (initFeed initialClipIndex)

/-!
Watch screen handlers (src/app/tabs/watch.tsx).
-/

/-- Outcome of the watch screen's `handleClipChange`. -/
inductive ClipChangeOutcome where
  | denied (freeClipLimit : ℕ)
  | accepted (savedIndex : ℤ) (savedTime : ℚ)
deriving DecidableEq, Repr

/-- Watch.handleClipChange (src/app/tabs/watch.tsx lines 89-112): checks
`canAccessClip(film, clipIndex, false)`; on denial it shows the premium
alert (the access-denied signal) and returns without saving; on success
it updates the watch-level index and saves progress at time 0. -/
def handleClipChange (film : Film) (clipIndex : ℤ) : ClipChangeOutcome :=
  if canAccessClip film clipIndex false = false then
    .denied film.freeClipLimit
  else
    .accepted clipIndex 0

/-- Watch.handleProgress throttle gate (src/app/tabs/watch.tsx line
116): `Math.floor(currentTime) % 10 === 0`.  The gate is stateless: it
consults nothing but the tick's own position. -/
def shouldSaveTick (currentTime : ℚ) : Bool :=
  ⌊currentTime⌋ % 10 == 0

/-- A tick stream at three calls per second over thirty seconds:
positions k/3 seconds for k = 0, …, 90. -/
def tickStream3Hz : List ℚ :=
  (List.range 91).map (fun k : ℕ => (k : ℚ) / 3)

/-- Number of persisted writes the watch screen's `handleProgress`
issues over a tick stream. -/
def countSavedTicks (ticks : List ℚ) : ℕ :=
  ticks.countP shouldSaveTick

/-!
Progress-reporting pipeline for one playback tick
(src/components/VerticalVideoPlayer.tsx lines 506-518 and 683-685,
src/app/tabs/watch.tsx lines 114-119).
-/

/-- Arguments a `VideoItem` passes to its `onProgress` prop on a status
update (VerticalVideoPlayer.tsx lines 509-517): nothing when the status
is not loaded, otherwise position and duration in seconds.  Note the
item does not pass its own clip index. -/
def videoItemTickArgs (loaded : Bool) (positionMillis durationMillis : ℕ) :
    Option (ℚ × ℚ) :=
  if loaded then some ((positionMillis : ℚ) / 1000, (durationMillis : ℚ) / 1000)
  else none

/-- The feed's `handleProgress` (VerticalVideoPlayer.tsx lines 683-685):
forwards the tick upward stamped with the feed's `currentIndex`. -/
def feedForwardTick (currentIndex : ℕ) (args : ℚ × ℚ) : ℕ × ℚ × ℚ :=
  (currentIndex, args.1, args.2)

/-- The upward progress report produced when the item at
`tickingClipIndex` receives a playback-status update while the feed's
active index is `currentIndex`: the composition of the two functions
above. -/
def reportedTick (currentIndex tickingClipIndex : ℕ) (loaded : Bool)
    (positionMillis durationMillis : ℕ) : Option (ℕ × ℚ × ℚ) :=
  (videoItemTickArgs loaded positionMillis durationMillis).map
    (feedForwardTick currentIndex)

/-- Sample record used to instantiate persistence claims. -/
def demoProgress : WatchProgress :=
  { filmId := "film1", currentClipIndex := 1, currentTime := 42,
    lastWatchedAt := "2024-01-01T00:00:00Z", userId := "alice" }

/-- Same film, different user: used against the cache-key claim. -/
def demoProgressOtherUser : WatchProgress :=
  { filmId := "film1", currentClipIndex := 3, currentTime := 7,
    lastWatchedAt := "2024-01-02T00:00:00Z", userId := "bob" }

/-- Environment in which every primitive I/O call succeeds. -/
def envAllOk : IOEnv :=
  ⟨false, false, false, false, false, false⟩

/-- Environment in which the remote upsert throws. -/
def envCloudDown : IOEnv :=
  ⟨false, false, true, false, true, false⟩

/-!
Helper lemmas.
-/

/-- Evaluation of the throttle gate on an exact tick of the 3 Hz stream:
the gate fires iff the tick's integer second is a multiple of ten. -/
lemma shouldSaveTick_div_three (k : ℕ) :
    shouldSaveTick ((k : ℚ) / 3) = decide (k / 3 % 10 = 0) := by
  have h3 : ((3 : ℚ)) = ((3 : ℕ) : ℚ) := by norm_num
  unfold shouldSaveTick
  rw [h3, Rat.floor_natCast_div_natCast]
  by_cases hk : k / 3 % 10 = 0
  · simp [hk]
    omega
  · simp [hk]
    omega

/-- The throttle gate on a whole-second position. -/
lemma shouldSaveTick_natCast (n : ℕ) :
    shouldSaveTick (n : ℚ) = decide (n % 10 = 0) := by
  unfold shouldSaveTick
  rw [Int.floor_natCast]
  by_cases hn : n % 10 = 0
  · simp [hn]
    omega
  · simp [hn]
    omega

/-- String append is left-cancellative. -/
lemma string_append_left_cancel {s t₁ t₂ : String}
    (h : s ++ t₁ = s ++ t₂) : t₁ = t₂ := by
  have hd : (s ++ t₁).data = (s ++ t₂).data := by rw [h]
  simp only [String.data_append] at hd
  have h2 := List.append_cancel_left hd
  cases t₁
  cases t₂
  exact congrArg String.mk h2

lemma setClip_currentIndex (st : FeedState) (i : ℕ) (c : ClipPlayback) :
    (st.setClip i c).currentIndex = st.currentIndex := rfl

lemma setClip_clip_self (st : FeedState) (i : ℕ) (c : ClipPlayback) :
    (st.setClip i c).clip i = c := by
  simp [FeedState.setClip]

lemma setClip_clip_ne (st : FeedState) {i j : ℕ} (c : ClipPlayback) (h : j ≠ i) :
    (st.setClip i c).clip j = st.clip j := by
  simp [FeedState.setClip, h]

lemma stepStatus_currentIndex (st : FeedState) (i : ℕ) (loaded : Bool)
    (pos dur : ℕ) (fin : Bool) :
    (stepStatus st i loaded pos dur fin).currentIndex = st.currentIndex := by
  cases loaded <;> rfl

lemma stepStatus_clip_ne (st : FeedState) {i j : ℕ} (loaded : Bool)
    (pos dur : ℕ) (fin : Bool) (h : j ≠ i) :
    (stepStatus st i loaded pos dur fin).clip j = st.clip j := by
  cases loaded <;> simp [stepStatus, FeedState.setClip, h]

lemma stepToggle_currentIndex (st : FeedState) :
    (stepToggle st).currentIndex = st.currentIndex := by
  dsimp only [stepToggle]
  split
  · split <;> rfl
  · rfl

lemma stepToggle_clip_ne (st : FeedState) {j : ℕ} (h : j ≠ st.currentIndex) :
    (stepToggle st).clip j = st.clip j := by
  dsimp only [stepToggle]
  split
  · split <;> exact setClip_clip_ne st _ h
  · rfl

lemma stepVisibility_currentIndex (st : FeedState) (n : ℕ) :
    (stepVisibility st n).currentIndex = n := by
  unfold stepVisibility
  split <;> rfl

def ActiveOnly (st : FeedState) : Prop :=
  ∀ i, ((st.clip i).isPlaying = true ∨ (st.clip i).nativePlaying = true) →
    i = st.currentIndex

lemma activeOnly_init (n : ℕ) : ActiveOnly (initFeed n) := by
  intro i h
  rcases h with h | h <;> simp [initFeed, ClipPlayback.initial] at h

lemma activeOnly_step {st : FeedState} (h : ActiveOnly st) (e : FeedEvent) :
    ActiveOnly (stepFeed st e) := by
  cases e with
  | visibility n =>
      intro i hi
      rw [show stepFeed st (.visibility n) = stepVisibility st n from rfl] at hi
      rw [show stepFeed st (.visibility n) = stepVisibility st n from rfl,
        stepVisibility_currentIndex]
      by_cases hc : st.currentIndex = n
      · rw [show stepVisibility st n = ⟨n, st.clip⟩ from by
          unfold stepVisibility; rw [if_pos hc]] at hi
        exact (h i hi).trans hc
      · rw [show stepVisibility st n =
            FeedState.setClip ⟨n, st.clip⟩ st.currentIndex
              { st.clip st.currentIndex with isPlaying := false, nativePlaying := false }
            from by unfold stepVisibility; rw [if_neg hc]] at hi
        by_cases hie : i = st.currentIndex
        · rw [hie, setClip_clip_self] at hi
          simp at hi
        · rw [setClip_clip_ne _ _ hie] at hi
          exact absurd (h i hi) hie
  | status i loaded pos dur fin =>
      intro j hj
      rw [show stepFeed st (.status i loaded pos dur fin) = stepStatus st i loaded pos dur fin
        from rfl] at hj
      rw [show stepFeed st (.status i loaded pos dur fin) = stepStatus st i loaded pos dur fin
        from rfl, stepStatus_currentIndex]
      by_cases hji : j = i
      · subst hji
        by_cases hnat : (st.clip j).nativePlaying = true
        · exact h j (Or.inr hnat)
        · by_cases hcur : j = st.currentIndex
          · exact hcur
          · exfalso
            have hnat' : (st.clip j).nativePlaying = false := by
              simpa using hnat
            cases loaded <;> cases fin <;>
              simp [stepStatus, FeedState.setClip, hnat', hcur] at hj
            · exact absurd (h j (Or.inl hj)) hcur
            · exact absurd (h j (Or.inl hj)) hcur
      · rw [stepStatus_clip_ne st loaded pos dur fin hji] at hj
        exact h j hj
  | toggle =>
      intro j hj
      rw [show stepFeed st .toggle = stepToggle st from rfl] at hj
      rw [show stepFeed st .toggle = stepToggle st from rfl, stepToggle_currentIndex]
      by_cases hji : j = st.currentIndex
      · exact hji
      · rw [stepToggle_clip_ne st hji] at hj
        exact h j hj

lemma activeOnly_run (n : ℕ) (evs : List FeedEvent) : ActiveOnly (runFeed n evs) := by
  unfold runFeed
  generalize hst : initFeed n = st
  have h0 : ActiveOnly st := hst ▸ activeOnly_init n
  clear hst
  induction evs generalizing st with
  | nil => exact h0
  | cons e rest ih => exact ih _ (activeOnly_step h0 e)

/-- C5: `canAccessClip` fails closed on an out-of-bounds index, returns
true unconditionally for an unrestricted clip, returns true for a
restricted clip with premium entitlement, returns true for a restricted
clip without premium exactly when the index is below the free-clip
limit, and on the five-clip demo film a free viewer gets
[true, true, false, false, false]. -/
theorem c5_can_access_policy :
    (∀ (film : Film) (i : ℤ) (prem : Bool),
      (i < 0 ∨ (film.clips.length : ℤ) ≤ i) → canAccessClip film i prem = false)
    ∧ (∀ (film : Film) (i : ℤ) (prem : Bool) (clip : Clip),
      jsIndex film.clips i = some clip → clip.isPremium ≠ some true →
      canAccessClip film i prem = true)
    ∧ (∀ (film : Film) (i : ℤ) (clip : Clip),
      jsIndex film.clips i = some clip → clip.isPremium = some true →
      canAccessClip film i true = true)
    ∧ (∀ (film : Film) (i : ℤ) (clip : Clip),
      jsIndex film.clips i = some clip → clip.isPremium = some true →
      (canAccessClip film i false = true ↔ i < (film.freeClipLimit : ℤ)))
    ∧ ((List.range 5).map (fun k : ℕ => canAccessClip demoFilm (k : ℤ) false)
        = [true, true, false, false, false]) := by
  refine ⟨?_, ?_, ?_, ?_, by decide⟩
  · intro film i prem h
    unfold canAccessClip jsIndex
    rw [dif_neg]
    rintro ⟨h0, hlen⟩
    omega
  · intro film i prem clip hidx hprem
    unfold canAccessClip
    rw [hidx]
    simp [hprem]
  · intro film i clip hidx hprem
    unfold canAccessClip
    rw [hidx]
    simp [hprem]
  · intro film i clip hidx hprem
    unfold canAccessClip
    rw [hidx]
    simp [hprem]

/-- C5 witness: the policy instantiated on the demo film. -/
theorem c5_can_access_policy_witness :
    canAccessClip demoFilm 5 false = false
    ∧ canAccessClip demoFilm 0 false = true
    ∧ canAccessClip demoFilm 2 true = true
    ∧ (canAccessClip demoFilm 2 false = true ↔ (2 : ℤ) < (demoFilm.freeClipLimit : ℤ)) :=
  ⟨c5_can_access_policy.1 demoFilm 5 false (by decide),
   c5_can_access_policy.2.1 demoFilm 0 false (demoClip 0 false) (by decide) (by decide),
   c5_can_access_policy.2.2.1 demoFilm 2 (demoClip 2 true) (by decide) (by decide),
   c5_can_access_policy.2.2.2.1 demoFilm 2 (demoClip 2 true) (by decide) (by decide)⟩

/-- C9: for a valid current index, `getNextClipIndex` is the clamped
successor and `getPreviousClipIndex` the clamped predecessor, both
staying in bounds, with the stated boundary identities. -/
theorem c9_index_clamping :
    ∀ (current total : ℤ), 0 ≤ current → current < total →
      getNextClipIndex current total = min (current + 1) (total - 1)
      ∧ 0 ≤ getNextClipIndex current total
      ∧ getNextClipIndex current total < total
      ∧ getPreviousClipIndex current = max (current - 1) 0
      ∧ 0 ≤ getPreviousClipIndex current
      ∧ getPreviousClipIndex current < total
      ∧ getNextClipIndex (total - 1) total = total - 1
      ∧ getPreviousClipIndex 0 = 0 := by
  intro current total h0 hlt
  unfold getNextClipIndex getPreviousClipIndex
  refine ⟨rfl, ?_, ?_, rfl, ?_, ?_, ?_, ?_⟩ <;> omega

/-- C9 witness: clamping at both ends of a three-clip film. -/
theorem c9_index_clamping_witness :
    (0 : ℤ) ≤ 2 ∧ (2 : ℤ) < 3
    ∧ getNextClipIndex (3 - 1) 3 = 3 - 1
    ∧ getPreviousClipIndex 0 = 0 :=
  ⟨by decide, by decide,
   (c9_index_clamping 2 3 (by decide) (by decide)).2.2.2.2.2.2.1,
   (c9_index_clamping 2 3 (by decide) (by decide)).2.2.2.2.2.2.2⟩

/-- C6 counterexample: records for two different users of the same film
are stored under the same local key, so the key is not derived
from the (userId, filmId) pair and does not separate users. -/
theorem c6_local_key_counterexample :
    localKeyOf demoProgress = localKeyOf demoProgressOtherUser
    ∧ demoProgress.userId ≠ demoProgressOtherUser.userId
    ∧ demoProgress.filmId = demoProgressOtherUser.filmId :=
  ⟨rfl, by decide, rfl⟩

/-- C6 amended: the local cache key is derived deterministically from
the film id alone — equal film ids give equal keys (for any user) and
distinct film ids give distinct keys. -/
theorem c6_local_key_film_only :
    (∀ p : WatchProgress, localKeyOf p = localStorageKey p.filmId)
    ∧ (∀ p q : WatchProgress, p.filmId = q.filmId → localKeyOf p = localKeyOf q)
    ∧ (∀ f g : String, localStorageKey f = localStorageKey g → f = g) := by
  refine ⟨fun p => rfl, ?_, ?_⟩
  · intro p q h
    unfold localKeyOf
    rw [h]
  · intro f g h
    unfold localStorageKey at h
    exact string_append_left_cancel h

/-- C6 amended witness: the two demo records share a key; key equality
for a concrete film id is inverted. -/
theorem c6_local_key_film_only_witness :
    localKeyOf demoProgress = localKeyOf demoProgressOtherUser
    ∧ ("film1" : String) = "film1" :=
  ⟨c6_local_key_film_only.2.1 demoProgress demoProgressOtherUser rfl,
   c6_local_key_film_only.2.2 "film1" "film1" rfl⟩

/-- C1 counterexample: the throttle gate of `handleProgress` is
stateless — it fires on every tick whose floor-second is a multiple of
ten, with no record of seconds already written.  Ticks at t = 10 and
t = 31/3 (consecutive ticks of the 3 Hz stream, same integer second 10)
both trigger a write, and the full 3 Hz stream over 30 seconds triggers
10 tick-driven writes, not 3. -/
theorem c1_throttle_counterexample :
    shouldSaveTick 10 = true
    ∧ shouldSaveTick (31 / 3) = true
    ∧ ⌊(31 / 3 : ℚ)⌋ = ⌊(10 : ℚ)⌋
    ∧ countSavedTicks tickStream3Hz = 10
    ∧ (10 : ℕ) ≠ 3 := by
  have hfloor31 : ⌊(31 / 3 : ℚ)⌋ = 10 := by
    rw [show ((31 : ℚ) / 3) = (((31 : ℕ) : ℚ) / ((3 : ℕ) : ℚ)) from by norm_num,
      Rat.floor_natCast_div_natCast]
    decide
  have hfloor10 : ⌊(10 : ℚ)⌋ = 10 := by
    rw [show ((10 : ℚ)) = ((10 : ℕ) : ℚ) from by norm_num, Int.floor_natCast]
    decide
  refine ⟨?_, ?_, ?_, ?_, by decide⟩
  · rw [show ((10 : ℚ)) = ((10 : ℕ) : ℚ) from by norm_num, shouldSaveTick_natCast]
    decide
  · rw [show ((31 : ℚ) / 3) = (((31 : ℕ) : ℚ) / 3) from by norm_num,
      shouldSaveTick_div_three]
    decide
  · rw [hfloor31, hfloor10]
  · show ((List.range 91).map (fun k : ℕ => (k : ℚ) / 3)).countP shouldSaveTick = 10
    rw [List.countP_map]
    rw [show (shouldSaveTick ∘ fun k : ℕ => (k : ℚ) / 3)
        = fun k : ℕ => decide (k / 3 % 10 = 0) from funext fun k => shouldSaveTick_div_three k]
    decide

/-- C1 amended: `handleProgress` triggers a persisted write exactly on
the ticks whose floor-second is a multiple of the 10-second interval,
with no per-second deduplication; the 3 Hz stream over 30 seconds
therefore triggers 10 tick-driven writes — three within each of the
seconds 0, 10 and 20 and one at t = 30 — in addition to the immediate
clip-change write performed by `handleClipChange`. -/
theorem c1_throttle_amended :
    (∀ t : ℚ, shouldSaveTick t = true ↔ ⌊t⌋ % 10 = 0)
    ∧ countSavedTicks tickStream3Hz = 10
    ∧ tickStream3Hz.countP (fun t => shouldSaveTick t && (⌊t⌋ == 10)) = 3
    ∧ (∀ film : Film, canAccessClip film 0 false = true →
        handleClipChange film 0 = .accepted 0 0) := by
  refine ⟨?_, ?_, ?_, ?_⟩
  · intro t
    unfold shouldSaveTick
    simp
  · show ((List.range 91).map (fun k : ℕ => (k : ℚ) / 3)).countP shouldSaveTick = 10
    rw [List.countP_map]
    rw [show (shouldSaveTick ∘ fun k : ℕ => (k : ℚ) / 3)
        = fun k : ℕ => decide (k / 3 % 10 = 0) from funext fun k => shouldSaveTick_div_three k]
    decide
  · show ((List.range 91).map (fun k : ℕ => (k : ℚ) / 3)).countP
        (fun t => shouldSaveTick t && (⌊t⌋ == 10)) = 3
    rw [List.countP_map]
    have heq : ((fun t : ℚ => shouldSaveTick t && (⌊t⌋ == 10)) ∘ fun k : ℕ => (k : ℚ) / 3)
        = fun k : ℕ => decide (k / 3 % 10 = 0) && decide (k / 3 = 10) := by
      funext k
      have h3 : ((3 : ℚ)) = ((3 : ℕ) : ℚ) := by norm_num
      show (shouldSaveTick ((k : ℚ) / 3) && (⌊(k : ℚ) / 3⌋ == 10)) = _
      rw [shouldSaveTick_div_three, h3, Rat.floor_natCast_div_natCast]
      by_cases hk : k / 3 = 10
      · simp [hk]
        omega
      · simp [hk]
        intro h
        omega
    rw [heq]
    decide
  · intro film h
    unfold handleClipChange
    rw [h]
    simp

/-- C2: in every state reachable by a sequence of feed events from
mount, a clip marked playing is the clip at the active index — hence at
most one clip has `isPlaying = true` at any observed instant — and an
accepted visibility change to a different index pauses the formerly
active clip and installs the new index. -/
theorem c2_single_active :
    (∀ (initialClipIndex : ℕ) (evs : List FeedEvent) (i : ℕ),
        ((runFeed initialClipIndex evs).clip i).isPlaying = true →
        i = (runFeed initialClipIndex evs).currentIndex)
    ∧ (∀ (st : FeedState) (n : ℕ), st.currentIndex ≠ n →
        ((stepFeed st (.visibility n)).clip st.currentIndex).isPlaying = false
        ∧ (stepFeed st (.visibility n)).currentIndex = n)
    ∧ (∀ (initialClipIndex : ℕ) (evs : List FeedEvent) (i j : ℕ),
        ((runFeed initialClipIndex evs).clip i).isPlaying = true →
        ((runFeed initialClipIndex evs).clip j).isPlaying = true → i = j) := by
  refine ⟨?_, ?_, ?_⟩
  · intro n evs i hi
    exact activeOnly_run n evs i (Or.inl hi)
  · intro st n h
    constructor
    · show ((stepVisibility st n).clip st.currentIndex).isPlaying = false
      unfold stepVisibility
      rw [if_neg h, setClip_clip_self]
    · exact stepVisibility_currentIndex st n
  · intro n evs i j hi hj
    exact (activeOnly_run n evs i (Or.inl hi)).trans
      (activeOnly_run n evs j (Or.inl hj)).symm

/-- Trace used to instantiate the single-active invariant: clip 0 is
visible on mount, its player loads at position 0, auto-play starts it,
and the next status update reports it playing. -/
def c2DemoTrace : List FeedEvent :=
  [.status 0 true 0 5000 false, .status 0 true 500 5000 false]

/-- C2 witness: after the demo trace clip 0 is playing, and the
invariant applied to the pair (0, 0) is discharged concretely. -/
theorem c2_single_active_witness :
    ((runFeed 0 c2DemoTrace).clip 0).isPlaying = true ∧ (0 : ℕ) = 0 :=
  ⟨by decide, c2_single_active.2.2 0 c2DemoTrace 0 0 (by decide) (by decide)⟩

/-- C3 counterexample: a playback tick of the backgrounded clip 0 while
clip 1 is active is not ignored — it produces an upward progress report,
and that report is attributed to active clip 1 carrying clip 0's
position (0 seconds), so a backgrounded player can overwrite the active
clip's reported position. -/
theorem c3_background_tick_counterexample :
    reportedTick 1 0 true 0 5000 = some (1, 0, 5)
    ∧ (0 : ℕ) ≠ 1 := by
  constructor
  · show (videoItemTickArgs true 0 5000).map (feedForwardTick 1) = _
    norm_num [videoItemTickArgs, feedForwardTick]
  · decide

/-- C3 amended: the upward report of a playback tick is independent of
which clip produced it — every loaded tick is forwarded stamped with the
feed's current index and the tick's own position — while the ticking
clip's loaded flag is still recorded in its own per-clip state. -/
theorem c3_tick_attribution_amended :
    (∀ (a i i' : ℕ) (loaded : Bool) (pm dm : ℕ),
        reportedTick a i loaded pm dm = reportedTick a i' loaded pm dm)
    ∧ (∀ (a i pm dm : ℕ),
        reportedTick a i true pm dm = some (a, (pm : ℚ) / 1000, (dm : ℚ) / 1000))
    ∧ (∀ (st : FeedState) (i pm dm : ℕ) (fin : Bool),
        ((stepFeed st (.status i true pm dm fin)).clip i).isLoaded = true) := by
  refine ⟨fun a i i' loaded pm dm => rfl, fun a i pm dm => rfl, ?_⟩
  intro st i pm dm fin
  show ((stepStatus st i true pm dm fin).clip i).isLoaded = true
  unfold stepStatus
  rw [if_pos rfl, setClip_clip_self]
  split
  · split <;> rfl
  · split <;> rfl

/-- Trace for the access-control evaluation: the user swipes to clip 2,
its player loads at position 0, the auto-play branch starts it, and the
following status update reports it playing. -/
def c4DeniedTrace : List FeedEvent :=
  [.visibility 2, .status 2 true 0 5000 false, .status 2 true 0 5000 false]

/-- C4 evaluated at the failing input: a free viewer swipes to
restricted clip 2 of the demo film; `handleClipChange` denies access and
emits the upgrade alert, yet the feed still makes clip 2 active and its
auto-play starts it — the denied clip plays. -/
theorem c4_denied_clip_still_plays :
    canAccessClip demoFilm 2 false = false
    ∧ handleClipChange demoFilm 2 = .denied 2
    ∧ (runFeed 0 c4DeniedTrace).currentIndex = 2
    ∧ ((runFeed 0 c4DeniedTrace).clip 2).isPlaying = true :=
  ⟨by decide, by decide, by decide, by decide⟩

/-- Functional characterization of `saveWatchProgress` over every
failure pattern, used by the write-path theorems. -/
lemma saveWatchProgress_spec (env : IOEnv) (l : LocalStore) (c : CloudStore)
    (p : WatchProgress) :
    saveWatchProgress env l c p = .ok
      ( (if env.localSetThrows then l else (localKeyOf p, p) :: l)
      , (if p.userId = "" ∨ env.cloudUpsertThrows ∨ env.cloudUpsertError then c
          else ((p.userId, p.filmId), p) :: c.filter (fun e => e.1 ≠ (p.userId, p.filmId)))
      , (if env.localSetThrows
          then [.localSet (localKeyOf p) p, .logError "saveLocalProgress"]
          else [.localSet (localKeyOf p) p])
        ++ (if p.userId = "" then []
            else if env.cloudUpsertThrows ∨ env.cloudUpsertError
              then [.cloudUpsert p.userId p.filmId p, .logError "syncProgressToCloud"]
              else [.cloudUpsert p.userId p.filmId p]) ) := by
  by_cases h1 : env.localSetThrows <;> by_cases h2 : p.userId = "" <;>
    by_cases h3 : env.cloudUpsertThrows <;> by_cases h4 : env.cloudUpsertError <;>
      simp [saveWatchProgress, saveLocalProgress, syncProgressToCloud,
        asyncStorageSetItem, supabaseUpsert, h1, h2, h3, h4, Bind.bind, Except.bind, Pure.pure, Except.pure]

/-- C7: every progress write attempts the local durable write first (the
first effect of the trace is the local set under the film key); a remote
upsert is attempted exactly when `userId` is non-empty, and at most
once; when the local write does not fail, the record is readable from
the resulting local store whatever the remote outcome; and the resulting
local store does not depend on the remote failure flags. -/
theorem c7_write_path :
    ∀ (env : IOEnv) (locSt : LocalStore) (cloud : CloudStore) (p : WatchProgress),
      ((saveWatchProgress env locSt cloud p).toOption.map (fun r => r.2.2.head?)
          = some (some (.localSet (localKeyOf p) p)))
      ∧ ((saveWatchProgress env locSt cloud p).toOption.map
            (fun r => r.2.2.countP PersistEffect.isCloudUpsert)
          = some (if p.userId = "" then 0 else 1))
      ∧ (env.localSetThrows = false →
          (saveWatchProgress env locSt cloud p).toOption.map
              (fun r => getLocalProgress envAllOk r.1 p.filmId)
            = some (some p))
      ∧ (∀ env' : IOEnv, env'.localSetThrows = env.localSetThrows →
          (saveWatchProgress env' locSt cloud p).toOption.map (fun r => r.1)
            = (saveWatchProgress env locSt cloud p).toOption.map (fun r => r.1)) := by
  intro env locSt cloud p
  refine ⟨?_, ?_, ?_, ?_⟩
  · rw [saveWatchProgress_spec]
    by_cases h1 : env.localSetThrows <;> simp [h1, Except.toOption]
  · rw [saveWatchProgress_spec]
    by_cases h1 : env.localSetThrows <;> by_cases h2 : p.userId = "" <;>
      by_cases h3 : env.cloudUpsertThrows ∨ env.cloudUpsertError <;>
        simp [h1, h2, h3, Except.toOption, PersistEffect.isCloudUpsert]
  · intro hls
    rw [saveWatchProgress_spec]
    simp [hls, Except.toOption, getLocalProgress, asyncStorageGetItem, envAllOk,
      localKeyOf, List.find?]
  · intro env' h
    rw [saveWatchProgress_spec, saveWatchProgress_spec]
    simp [Except.toOption, h]

/-- C7 witness: with a reachable local store and the cloud down, the
write still lands locally first and is readable back. -/
theorem c7_write_path_witness :
    envCloudDown.localSetThrows = false
    ∧ envAllOk.localSetThrows = envCloudDown.localSetThrows
    ∧ (saveWatchProgress envCloudDown [] [] demoProgress).toOption.map
        (fun r => getLocalProgress envAllOk r.1 demoProgress.filmId)
      = some (some demoProgress)
    ∧ (saveWatchProgress envAllOk [] [] demoProgress).toOption.map (fun r => r.1)
      = (saveWatchProgress envCloudDown [] [] demoProgress).toOption.map (fun r => r.1) :=
  ⟨rfl, rfl,
   (c7_write_path envCloudDown [] [] demoProgress).2.2.1 rfl,
   (c7_write_path envCloudDown [] [] demoProgress).2.2.2 envAllOk rfl⟩

/-- C10: `saveWatchProgress` resolves for every input and every failure
pattern — both the local-write failure and the remote-upsert failure are
caught inside the service, so no error propagates to the caller. -/
theorem c10_save_progress_total :
    ∀ (env : IOEnv) (locSt : LocalStore) (cloud : CloudStore) (p : WatchProgress),
      (saveWatchProgress env locSt cloud p).toOption.isSome = true := by
  intro env locSt cloud p
  rw [saveWatchProgress_spec]
  rfl

/-- Cloud table used to instantiate the read path. -/
def demoCloud : CloudStore := [(("alice", "film1"), demoProgress)]

/-- C8: with a truthy (non-null, non-empty) user id the cloud is
consulted and a successful fetch is returned as-is, while failure or
absence falls back to the local cache; with an empty or null user id
only the local cache is read; and the overall result is `null` exactly
when the cloud read yields nothing to this call and the local cache has
no record. -/
theorem c8_read_path :
    ∀ (env : IOEnv) (locSt : LocalStore) (cloud : CloudStore)
      (userId : Option String) (filmId : String),
      (∀ p, userIdTruthy userId = true →
        getCloudProgress env cloud (userId.getD "") filmId = some p →
        getWatchProgress env locSt cloud userId filmId = some p)
      ∧ (userIdTruthy userId = true →
        getCloudProgress env cloud (userId.getD "") filmId = none →
        getWatchProgress env locSt cloud userId filmId
          = getLocalProgress env locSt filmId)
      ∧ (userIdTruthy userId = false →
        getWatchProgress env locSt cloud userId filmId
          = getLocalProgress env locSt filmId)
      ∧ (getWatchProgress env locSt cloud userId filmId = none ↔
          ((userIdTruthy userId = false
              ∨ getCloudProgress env cloud (userId.getD "") filmId = none)
            ∧ getLocalProgress env locSt filmId = none)) := by
  intro env locSt cloud userId filmId
  refine ⟨?_, ?_, ?_, ?_⟩
  · intro p ht hc
    unfold getWatchProgress
    rw [ht, if_pos rfl, hc]
  · intro ht hc
    unfold getWatchProgress
    rw [ht, if_pos rfl, hc]
  · intro ht
    unfold getWatchProgress
    rw [ht]
    simp
  · unfold getWatchProgress
    by_cases ht : userIdTruthy userId = true
    · rw [ht, if_pos rfl]
      cases hc : getCloudProgress env cloud (userId.getD "") filmId with
      | none => simp [ht, hc]
      | some p => simp [ht, hc]
    · have ht' : userIdTruthy userId = false := by simpa using ht
      rw [ht']
      simp [ht']

/-- C8 witness: an authenticated read returns the cloud record; an
anonymous read and a cloud-down read fall back to the local cache. -/
theorem c8_read_path_witness :
    userIdTruthy (some "alice") = true
    ∧ getCloudProgress envAllOk demoCloud "alice" "film1" = some demoProgress
    ∧ getWatchProgress envAllOk [] demoCloud (some "alice") "film1" = some demoProgress
    ∧ getWatchProgress envAllOk [] demoCloud none "film1"
      = getLocalProgress envAllOk [] "film1" :=
  ⟨by decide, by decide,
   (c8_read_path envAllOk [] demoCloud (some "alice") "film1").1 demoProgress
     (by decide) (by decide),
   (c8_read_path envAllOk [] demoCloud none "film1").2.2.1 (by decide)⟩

/-- C1 amended witness: the gate and counts instantiated, and the
immediate clip-change write discharged on the demo film's clip 0. -/
theorem c1_throttle_amended_witness :
    canAccessClip demoFilm 0 false = true
    ∧ handleClipChange demoFilm 0 = .accepted 0 0 :=
  ⟨by decide, c1_throttle_amended.2.2.2 demoFilm (by decide)⟩
